import Mathlib

/- Shallow embedding of the instrument-control scripts of this repository:
   Control_Both.py, Croma/Control Load.py and NHR/NHR_control_test.py.
   Numeric values are modelled with exact rational arithmetic (the sweep
   constants 0, 2.5, 5, 7.5, 10, 1.5, 0.1 are all exactly representable);
   instrument I/O is modelled by an environment of deterministic response
   functions, and a run produces the list of issued commands/queries as an
   event trace together with an outcome. -/

/-- ASCII whitespace recognized by Python str.strip: space, tab, newline,
carriage return, vertical tab, form feed. -/
def isPySpace (c : Char) : Bool :=
  c == ' ' || c == '\t' || c == '\n' || c == '\r' || c == '\x0b' || c == '\x0c'

/-- Python str.strip with no argument: remove leading and trailing whitespace. -/
def pyStrip (s : String) : String :=
  ⟨((s.data.dropWhile isPySpace).reverse.dropWhile isPySpace).reverse⟩

/-- Python str.replace of the null character by the empty string: remove every
null byte (Control_Both.py line 33, NHR_control_test.py line 17). -/
def removeNulls (s : String) : String :=
  ⟨s.data.filter (fun c => c != '\x00')⟩

/-- The response cleaning performed by send_query_socket (Control_Both.py
lines 30-34) and send_query (NHR_control_test.py lines 13-17) on the decoded
response: .strip() followed by .replace of nulls. -/
def cleanResponse (raw : String) : String := removeNulls (pyStrip raw)

/-- The cleaning as the C9 spec sentence words it: only trailing whitespace
stripped, null bytes removed, nothing else.  Written from the spec's words to
be compared with cleanResponse, which is written from the source. -/
def specCleanTrailing (raw : String) : String :=
  removeNulls ⟨(raw.data.reverse.dropWhile isPySpace).reverse⟩

/-- The value of a decimal digit character, none for any other character. -/
def digitVal? : Char → Option ℕ
  | '9' => some 9
  | '8' => some 8
  | '7' => some 7
  | '6' => some 6
  | '5' => some 5
  | '4' => some 4
  | '3' => some 3
  | '2' => some 2
  | '1' => some 1
  | '0' => some 0
  | _ => none

/-- Read a maximal run of decimal digits, accumulating the value.
Helper for the model of Python float(): returns the accumulated value,
the number of digits consumed, and the remaining characters. -/
def readDigits : List Char → ℕ → ℕ → ℕ × ℕ × List Char
  | c :: cs, v, n =>
    match digitVal? c with
    | some d => readDigits cs (10 * v + d) (n + 1)
    | none => (v, n, c :: cs)
  | [], v, n => (v, n, [])

/-- Whether the first list is an initial run of the second (Python
str.startswith on the underlying characters). -/
def charsBeginWith : List Char → List Char → Bool
  | [], _ => true
  | _ :: _, [] => false
  | p :: ps, c :: cs => p == c && charsBeginWith ps cs

/-- Python str.startswith. -/
def pyStartsWith (s pat : String) : Bool := charsBeginWith pat.data s.data

/-- Parse an optional exponent suffix (e or E, optional sign, digits) applied
to an already-parsed mantissa; helper for the model of Python float(). -/
def parseExp (mant : ℚ) : List Char → Option ℚ
  | [] => some mant
  | c :: t =>
    if c == 'e' || c == 'E' then
      let signedTail : Bool × List Char :=
        match t with
        | '+' :: u => (false, u)
        | '-' :: u => (true, u)
        | _ => (false, t)
      let (ev, en, t2) := readDigits signedTail.2 0 0
      if en = 0 ∨ t2 ≠ [] then none
      else some (if signedTail.1 then mant / 10 ^ ev else mant * 10 ^ ev)
    else none

/-- Model of the Python builtin float() applied to a string: strips
whitespace, then accepts an optional sign, digits with an optional decimal
point (at least one digit overall) and an optional decimal exponent,
and returns none (a ValueError in Python) otherwise.  The special spellings
inf/nan and underscore separators are outside the modelled subset; no string
exchanged by these scripts uses them. -/
def strToFloat? (s : String) : Option ℚ :=
  let cs := (pyStrip s).data
  let signed : ℚ × List Char :=
    match cs with
    | '+' :: t => (1, t)
    | '-' :: t => (-1, t)
    | _ => (1, cs)
  let (ip, ipn, cs2) := readDigits signed.2 0 0
  match cs2 with
  | '.' :: t =>
    let (fp, fpn, cs3) := readDigits t 0 0
    if ipn + fpn = 0 then none
    else parseExp (signed.1 * ((ip : ℚ) + (fp : ℚ) / 10 ^ fpn)) cs3
  | _ => if ipn = 0 then none else parseExp (signed.1 * (ip : ℚ)) cs2

/-- A Python float value as these scripts use it: either a rational number or
the quiet not-a-number produced by the tolerant parser. -/
inductive PyFloat
  | num (q : ℚ)
  | nan
deriving DecidableEq, Repr

/-- parse_float (Control_Both.py lines 109-114, Control Load.py lines 19-24):
try float(value_str) and return NaN on ValueError/TypeError instead of
raising. -/
def parse_float (s : String) : PyFloat :=
  match strToFloat? s with
  | some q => .num q
  | none => .nan

/-- The raising conversion used for the verification readback
(Control_Both.py line 159, Control Load.py line 94) and for the NHR voltage
readback (NHR_control_test.py line 51): float() applied directly, so an
unparsable string is an error, not NaN. -/
def rawFloat (s : String) : Except Unit ℚ :=
  match strToFloat? s with
  | some q => .ok q
  | none => .error ()

/-- The tolerance test of Control_Both.py line 163 and Control Load.py
line 98: raise when abs(readback - requested) > 0.1. -/
def verificationRaises (requested readback : ℚ) : Bool :=
  decide (1 / 10 < |readback - requested|)

/-- The verification accepts exactly when it does not raise. -/
def verificationAccept (requested readback : ℚ) : Bool :=
  !(verificationRaises requested readback)

/-- The setup error check of connect_electronic_load (Control_Both.py
lines 101-103) and connect_and_configure_load (Control Load.py lines 55-57):
raise when the stripped SYSTem:ERRor? response is not "0", not "OK" and does
not start with "0,". -/
def setupErrorRaises (resp : String) : Bool :=
  let e := pyStrip resp
  decide (e ≠ "0" ∧ e ≠ "OK" ∧ ¬ pyStartsWith e "0,")

/-- One cleanup action of the safety-shutdown finally block of
Control_Both.py lines 189-202: the three simulator actions (VOLTage 0 with
OUTPut OFF, then close) are guarded by the simulator handle being non-null,
the four load actions (LOAD OFF, CURRent 0, *RST, close) by the load handle
being non-null. -/
inductive ShutStep
  | simVolt0
  | simOutOff
  | simClose
  | loadOff
  | loadCurr0
  | loadRst
  | loadClose
deriving DecidableEq, Repr

/-- The cleanup actions the finally block issues for a given pair of
handles: first the simulator block when simulator_socket is non-null, then
the load block when load_instrument is non-null (Control_Both.py
lines 192-202). -/
def shutdownSeq (simH loadH : Bool) : List ShutStep :=
  (if simH then [.simVolt0, .simOutOff, .simClose] else []) ++
    (if loadH then [.loadOff, .loadCurr0, .loadRst, .loadClose] else [])

/-- Execution of a list of cleanup actions with fault injection: the steps
run in order; a step whose action raises (fails s = true) stops the block and
the error propagates out of the finally block, exactly as unprotected
sequential statements behave.  Returns the attempted steps and whether an
error escaped. -/
def runShutdown (fails : ShutStep → Bool) : List ShutStep → List ShutStep × Bool
  | [] => ([], false)
  | s :: rest =>
    if fails s then ([s], true)
    else
      let r := runShutdown fails rest
      (s :: r.1, r.2)

/-- Sweep configuration constants of Control_Both.py lines 18-24. -/
def VOLTAGE_START_V : ℤ := 100

/-- Voltage sweep upper bound (Control_Both.py line 19). -/
def VOLTAGE_STOP_V : ℤ := 150

/-- Voltage sweep step (Control_Both.py line 20). -/
def VOLTAGE_STEP_V : ℤ := 25

/-- Current sweep start (Control_Both.py line 22). -/
def CURRENT_START_A : ℚ := 0

/-- Current sweep stop (Control_Both.py line 23). -/
def CURRENT_STOP_A : ℚ := 10

/-- Current sweep step, 2.5 (Control_Both.py line 24). -/
def CURRENT_STEP_A : ℚ := 5 / 2

/-- The value sequence of Python range(a, b, s) for the outer voltage loop
(Control_Both.py line 139): starting at a, emit while below b, stepping by s.
The iteration only terminates for positive step, which the guard records. -/
def pyRange (b s a : ℤ) : List ℤ :=
  if _h : 0 < s ∧ a < b then a :: pyRange b s (a + s) else []
termination_by (b - a).toNat
decreasing_by omega

/-- The setpoint sequence of the accumulating while-loop
(Control_Both.py lines 145-177): i_set starts at i, the body runs while
i_set ≤ stop, and i_set += step at the end of each body.  The iteration only
terminates for positive step, which the guard records. -/
def iRange (stop step i : ℚ) : List ℚ :=
  if h : 0 < step ∧ i ≤ stop then i :: iRange stop step (i + step) else []
termination_by (⌊(stop - i) / step⌋ + 1).toNat
decreasing_by
  have hstep : 0 < step := h.1
  have hne : step ≠ 0 := ne_of_gt hstep
  have key : (stop - (i + step)) / step = (stop - i) / step - 1 := by
    field_simp
    ring
  have hfl : ⌊(stop - (i + step)) / step⌋ = ⌊(stop - i) / step⌋ - 1 := by
    rw [key]
    exact_mod_cast Int.floor_sub_int ((stop - i) / step) 1
  have hnn : 0 ≤ ⌊(stop - i) / step⌋ :=
    Int.floor_nonneg.mpr (div_nonneg (by linarith [h.2]) (le_of_lt hstep))
  omega

/-- The inner-loop setpoints of the combined sweep: from CURRENT_START_A to
CURRENT_STOP_A in steps of CURRENT_STEP_A. -/
def innerSetpoints : List ℚ := iRange CURRENT_STOP_A CURRENT_STEP_A CURRENT_START_A

/-- v_range of Control_Both.py line 139:
range(VOLTAGE_START_V, VOLTAGE_STOP_V + 1, VOLTAGE_STEP_V). -/
def outerVoltages : List ℤ := pyRange (VOLTAGE_STOP_V + 1) VOLTAGE_STEP_V VOLTAGE_START_V

/-- Commands sent to the grid simulator socket. -/
inductive SimCmd
  | nselect (n : ℤ)
  | currLimit (a : ℚ)
  | powLimit (w : ℚ)
  | outputOn
  | volt (v : ℤ)
deriving DecidableEq, Repr

/-- Commands written to the electronic load. -/
inductive LoadCmd
  | rst
  | cls
  | modeACF
  | cfactor (x : ℚ)
  | pfactor (x : ℚ)
  | peakAC (a : ℚ)
  | curr (a : ℚ)
  | loadOn
deriving DecidableEq, Repr

/-- Queries sent to the electronic load. -/
inductive LoadQry
  | sysErr
  | idn
  | currQ
  | measV
  | measI
  | measP
deriving DecidableEq, Repr

/-- One observable event of a run of Control_Both.py: an abort poll, a
command or query to one of the two instruments, a printed result row
(record), one of the three final status prints, or a shutdown cleanup
action. -/
inductive Ev
  | poll
  | simCmd (c : SimCmd)
  | simQry (resp : String)
  | loadCmd (c : LoadCmd)
  | loadQry (q : LoadQry) (resp : String)
  | record (v : ℤ) (i : ℚ) (vm im pm : PyFloat)
  | printCompleted
  | printInterrupted
  | printError
  | shut (s : ShutStep)
deriving DecidableEq, Repr

/-- How the guarded sweep region ends early: a KeyboardInterrupt raised by
the abort poll, or any other exception (failed readback conversion or
verification failure). -/
inductive SweepStop
  | interrupt
  | error
deriving DecidableEq, Repr

/-- Outcome of a whole run, as reported by the except clauses of
Control_Both.py lines 184-187: normal completion, user interruption, or an
error. -/
inductive Outcome
  | completed
  | interrupted
  | errored
deriving DecidableEq, Repr

/-- The deterministic external world of one run: the abort-poll results in
poll order, and the instrument's response to each query (readback responses
may depend on the combination being verified). -/
structure Env where
  abortAt : ℕ → Bool
  currReadback : ℤ → ℚ → String
  measV : ℤ → ℚ → String
  measI : ℤ → ℚ → String
  measP : ℤ → ℚ → String
  sysErrResp : String
  idnResp : String
  safetyResp : String

/-- The inner current while-loop body (Control_Both.py lines 146-179),
iterating over the while-loop's setpoint sequence with early exit: poll the
abort key first; then issue the peak-limit, setpoint and LOAD ON commands;
read back CURRent? and convert with the raising float(); raise on a
tolerance violation; otherwise take the three measurements, emit the result
record, and continue with the next setpoint.  Returns the event trace, the
next poll index, and the early-stop reason if any. -/
def runInner (env : Env) (v : ℤ) : List ℚ → ℕ → List Ev × ℕ × Option SweepStop
  | [], polls => ([], polls, none)
  | i :: rest, polls =>
    if env.abortAt polls then ([.poll], polls + 1, some .interrupt)
    else
      let rb := env.currReadback v i
      let evs0 : List Ev :=
        [.poll, .loadCmd (.peakAC (if 0 < i then i * (3 / 2) else 1 / 10)),
         .loadCmd (.curr i), .loadCmd .loadOn, .loadQry .currQ rb]
      match rawFloat rb with
      | .error _ => (evs0, polls + 1, some .error)
      | .ok r =>
        if verificationRaises i r then (evs0, polls + 1, some .error)
        else
          let vm := env.measV v i
          let im := env.measI v i
          let pm := env.measP v i
          let evs1 := evs0 ++
            [.loadQry .measV vm, .loadQry .measI im, .loadQry .measP pm,
             .record v i (parse_float vm) (parse_float im) (parse_float pm)]
          let r2 := runInner env v rest (polls + 1)
          (evs1 ++ r2.1, r2.2.1, r2.2.2)

/-- The outer voltage for-loop (Control_Both.py lines 140-180): send the
voltage setpoint, run the inner current loop (whose setpoint sequence is
passed in; the script always uses innerSetpoints), and continue with the
next voltage unless the inner loop stopped early. -/
def runOuter (env : Env) (inner : List ℚ) : List ℤ → ℕ → List Ev × ℕ × Option SweepStop
  | [], polls => ([], polls, none)
  | v :: rest, polls =>
    let r := runInner env v inner polls
    match r.2.2 with
    | some st => (Ev.simCmd (.volt v) :: r.1, r.2.1, some st)
    | none =>
      let r2 := runOuter env inner rest r.2.1
      (Ev.simCmd (.volt v) :: (r.1 ++ r2.1), r2.2.1, r2.2.2)

/-- Events of connect_grid_simulator (Control_Both.py lines 70-82). -/
def simConnectEvs (env : Env) : List Ev :=
  [.simCmd (.nselect 3), .simCmd (.currLimit 20), .simCmd (.powLimit 2500),
   .simQry env.safetyResp]

/-- Events of connect_electronic_load (Control_Both.py lines 84-107): reset
and configuration writes, the SYSTem:ERRor? query, and — only when the error
check does not raise — the *IDN? query. -/
def connectLoadEvs (env : Env) : List Ev :=
  [.loadCmd .rst, .loadCmd .cls, .loadCmd .modeACF, .loadCmd (.cfactor (1414 / 1000)),
   .loadCmd (.pfactor 1), .loadQry .sysErr env.sysErrResp] ++
    (if setupErrorRaises env.sysErrResp then [] else [.loadQry .idn env.idnResp])

/-- One whole run of Control_Both.py: connect both instruments (a setup
error raised by connect_electronic_load skips everything up to the finally
block, with only the simulator handle set); otherwise turn the simulator
output on, run the nested sweep, report the outcome per the except clauses,
and always execute the safety-shutdown finally block for the connected
handles (fault-free here; runShutdown models its fault behaviour). -/
def mainRun (env : Env) : List Ev × Outcome :=
  if setupErrorRaises env.sysErrResp then
    (simConnectEvs env ++ connectLoadEvs env ++ (shutdownSeq true false).map .shut,
     .errored)
  else
    let pre := simConnectEvs env ++ connectLoadEvs env ++ [Ev.simCmd .outputOn]
    let r := runOuter env innerSetpoints outerVoltages 0
    match r.2.2 with
    | none =>
      (pre ++ r.1 ++ [.printCompleted] ++ (shutdownSeq true true).map .shut, .completed)
    | some .interrupt =>
      (pre ++ r.1 ++ [.printInterrupted] ++ (shutdownSeq true true).map .shut, .interrupted)
    | some .error =>
      (pre ++ r.1 ++ [.printError] ++ (shutdownSeq true true).map .shut, .errored)

/-- Extract the voltage of an outer-loop VOLTage setpoint command. -/
def voltOf : Ev → Option ℤ
  | .simCmd (.volt v) => some v
  | _ => none

/-- Extract the (voltage, current) combination of a result record. -/
def recPairOf : Ev → Option (ℤ × ℚ)
  | .record v i _ _ _ => some (v, i)
  | _ => none

/-- Extract result records (as some pair) and the completion print
(as none), ignoring every other event; used to state that the completion
message comes only after all records. -/
def recOrDone : Ev → Option (Option (ℤ × ℚ))
  | .record v i _ _ _ => some (some (v, i))
  | .printCompleted => some none
  | _ => none

/-- Extract the argument of a CURR setpoint command. -/
def currOf : Ev → Option ℚ
  | .loadCmd (.curr a) => some a
  | _ => none

/-- Whether an event is an abort poll. -/
def isPollEv : Ev → Bool
  | .poll => true
  | _ => false

/-- Whether an event is the *IDN? identity query. -/
def isIdnQry : Ev → Bool
  | .loadQry .idn _ => true
  | _ => false

/-- Whether an event belongs to the sweep phase (output on, polls,
setpoint commands, result records). -/
def isSweepEv : Ev → Bool
  | .poll => true
  | .simCmd .outputOn => true
  | .simCmd (.volt _) => true
  | .loadCmd (.curr _) => true
  | .loadCmd (.peakAC _) => true
  | .loadCmd .loadOn => true
  | .record _ _ _ _ _ => true
  | _ => false

/-- A decimal rendering of the five inner setpoints, used by the concrete
environments below as an instrument that echoes the requested setpoint. -/
def litOf (i : ℚ) : String :=
  if i = 0 then "0"
  else if i = 5 / 2 then "2.5"
  else if i = 5 then "5"
  else if i = 15 / 2 then "7.5"
  else "10"

/-- A fault-free environment: no abort request, the load echoes every
current setpoint exactly, all queries answer parsable text. -/
def envBenign : Env where
  abortAt := fun _ => false
  currReadback := fun _ i => litOf i
  measV := fun _ _ => "120.0"
  measI := fun _ _ => "2.0"
  measP := fun _ _ => "240.0"
  sysErrResp := "0"
  idnResp := "Chroma,63804"
  safetyResp := "ok"

/-- The abort scenario of claim C5: identical to the fault-free environment
except that the abort key is seen from the eighth poll on, i.e. right after
the seventh combination (125, 2.5) completes. -/
def envAbort7 : Env := { envBenign with abortAt := fun n => decide (7 ≤ n) }

/-- An environment whose only flaw is an unparsable CURRent? readback
response; every measurement response stays parsable. -/
def envBadReadback : Env := { envBenign with currReadback := fun _ _ => "ERR" }

/-- An environment whose only flaw is a parsable readback far outside the
0.1 tolerance. -/
def envBadTolerance : Env := { envBenign with currReadback := fun _ _ => "99" }

/-- An environment whose electronic load reports a setup error. -/
def envSetupError : Env := { envBenign with sysErrResp := "113,Undefined header" }

/-- One successful inner-loop iteration's event block: poll, the three load
commands, the readback query, the three measurement queries, and the result
record.  This names the block runInner emits per setpoint when nothing
stops the loop. -/
def iterBlock (env : Env) (v : ℤ) (i : ℚ) : List Ev :=
  [.poll, .loadCmd (.peakAC (if 0 < i then i * (3 / 2) else 1 / 10)),
   .loadCmd (.curr i), .loadCmd .loadOn, .loadQry .currQ (env.currReadback v i),
   .loadQry .measV (env.measV v i), .loadQry .measI (env.measI v i),
   .loadQry .measP (env.measP v i),
   .record v i (parse_float (env.measV v i)) (parse_float (env.measI v i))
     (parse_float (env.measP v i))]

theorem iRange_cons {stop step i : ℚ} (h1 : 0 < step) (h2 : i ≤ stop) :
    iRange stop step i = i :: iRange stop step (i + step) := by
  rw [iRange]
  simp [h1, h2]

theorem iRange_stop {stop step i : ℚ} (h2 : ¬ i ≤ stop) :
    iRange stop step i = [] := by
  rw [iRange]
  simp [h2]

theorem pyRange_cons {b s a : ℤ} (h1 : 0 < s) (h2 : a < b) :
    pyRange b s a = a :: pyRange b s (a + s) := by
  rw [pyRange]
  simp [h1, h2]

theorem pyRange_stop {b s a : ℤ} (h2 : ¬ a < b) :
    pyRange b s a = [] := by
  rw [pyRange]
  simp [h2]

theorem innerSetpoints_eq : innerSetpoints = [0, 5 / 2, 5, 15 / 2, 10] := by
  unfold innerSetpoints CURRENT_STOP_A CURRENT_STEP_A CURRENT_START_A
  rw [iRange_cons (by norm_num) (by norm_num), iRange_cons (by norm_num) (by norm_num),
    iRange_cons (by norm_num) (by norm_num), iRange_cons (by norm_num) (by norm_num),
    iRange_cons (by norm_num) (by norm_num), iRange_stop (by norm_num)]
  norm_num

theorem outerVoltages_eq : outerVoltages = [100, 125, 150] := by
  unfold outerVoltages VOLTAGE_STOP_V VOLTAGE_STEP_V VOLTAGE_START_V
  rw [pyRange_cons (by norm_num) (by norm_num), pyRange_cons (by norm_num) (by norm_num),
    pyRange_cons (by norm_num) (by norm_num), pyRange_stop (by norm_num)]
  norm_num

theorem floor_step_shift {stop step i : ℚ} (hstep : 0 < step) :
    ⌊(stop - (i + step)) / step⌋ = ⌊(stop - i) / step⌋ - 1 := by
  have hne : step ≠ 0 := ne_of_gt hstep
  have key : (stop - (i + step)) / step = (stop - i) / step - 1 := by
    field_simp
    ring
  rw [key]
  exact_mod_cast Int.floor_sub_int ((stop - i) / step) 1

theorem iRange_length (stop step : ℚ) :
    ∀ i : ℚ, 0 < step → i ≤ stop →
      (iRange stop step i).length = (⌊(stop - i) / step⌋).toNat + 1 := by
  refine iRange.induct stop step
    (fun i => 0 < step → i ≤ stop →
      (iRange stop step i).length = (⌊(stop - i) / step⌋).toNat + 1)
    (fun i h ih h1 h2 => ?_) (fun i h h1 h2 => absurd ⟨h1, h2⟩ h)
  rw [iRange_cons h1 h2, List.length_cons]
  by_cases h3 : i + step ≤ stop
  · rw [ih h1 h3, floor_step_shift h1]
    have hnn : 0 ≤ ⌊(stop - (i + step)) / step⌋ :=
      Int.floor_nonneg.mpr (div_nonneg (by linarith) (le_of_lt h1))
    rw [floor_step_shift h1] at hnn
    omega
  · rw [iRange_stop h3, List.length_nil]
    have hlt : (stop - i) / step < 1 := by
      rw [div_lt_one h1]
      linarith
    have hge : 0 ≤ (stop - i) / step := div_nonneg (by linarith) (le_of_lt h1)
    have : ⌊(stop - i) / step⌋ = 0 := by
      rw [Int.floor_eq_zero_iff]
      exact ⟨hge, hlt⟩
    omega

theorem iRange_lb (stop step : ℚ) :
    ∀ i : ℚ, ∀ x ∈ iRange stop step i, i ≤ x := by
  refine iRange.induct stop step (fun i => ∀ x ∈ iRange stop step i, i ≤ x)
    (fun i h ih => ?_) (fun i h => ?_)
  · dsimp only at ih ⊢
    rw [iRange_cons h.1 h.2]
    intro x hx
    rcases List.mem_cons.mp hx with hx | hx
    · exact le_of_eq hx.symm
    · have := ih x hx
      linarith [h.1]
  · dsimp only
    rw [iRange, dif_neg h]
    intro x hx
    simp at hx

theorem iRange_ub (stop step : ℚ) :
    ∀ i : ℚ, ∀ x ∈ iRange stop step i, x ≤ stop := by
  refine iRange.induct stop step (fun i => ∀ x ∈ iRange stop step i, x ≤ stop)
    (fun i h ih => ?_) (fun i h => ?_)
  · dsimp only at ih ⊢
    rw [iRange_cons h.1 h.2]
    intro x hx
    rcases List.mem_cons.mp hx with hx | hx
    · exact hx ▸ h.2
    · exact ih x hx
  · dsimp only
    rw [iRange, dif_neg h]
    intro x hx
    simp at hx

theorem iRange_sorted (stop step : ℚ) :
    ∀ i : ℚ, (iRange stop step i).Sorted (· ≤ ·) := by
  refine iRange.induct stop step (fun i => (iRange stop step i).Sorted (· ≤ ·))
    (fun i h ih => ?_) (fun i h => ?_)
  · dsimp only at ih ⊢
    rw [iRange_cons h.1 h.2]
    refine List.sorted_cons.mpr ⟨?_, ih⟩
    intro x hx
    have := iRange_lb stop step (i + step) x hx
    linarith [h.1]
  · dsimp only
    rw [iRange, dif_neg h]
    exact List.sorted_nil

theorem pyRange_cast (s b : ℤ) :
    ∀ a : ℤ, List.map (fun z : ℤ => (z : ℚ)) (pyRange b s a) =
      iRange (((b - 1 : ℤ) : ℚ)) (s : ℚ) (a : ℚ) := by
  refine pyRange.induct b s
    (fun a => List.map (fun z : ℤ => (z : ℚ)) (pyRange b s a) =
      iRange (((b - 1 : ℤ) : ℚ)) (s : ℚ) (a : ℚ))
    (fun a h ih => ?_) (fun a h => ?_)
  · dsimp only at ih ⊢
    have hs : (0 : ℚ) < (s : ℚ) := by exact_mod_cast h.1
    have hab : (a : ℚ) ≤ ((b - 1 : ℤ) : ℚ) := by
      have h2 := h.2
      exact_mod_cast (show a ≤ b - 1 by omega)
    rw [pyRange_cons h.1 h.2, iRange_cons hs hab, List.map_cons, ih]
    norm_cast
  · dsimp only
    rw [pyRange, dif_neg h]
    have hneg : ¬ ((0 : ℚ) < (s : ℚ) ∧ (a : ℚ) ≤ ((b - 1 : ℤ) : ℚ)) := by
      rintro ⟨hs, hab⟩
      refine h ⟨by exact_mod_cast hs, ?_⟩
      have : a ≤ b - 1 := by exact_mod_cast hab
      omega
    rw [iRange, dif_neg hneg]
    simp

/-- C2: for every sweep axis with start ≤ stop and step > 0 — the outer
Python integer range over voltage (range(start, stop + 1, step)) and the
inner accumulating while-loop over current — the loop executes exactly
⌊(stop − start)/step⌋ + 1 iterations, the produced setpoint sequence is
non-decreasing, and every produced setpoint is ≤ stop. -/
theorem sweep_axis_iteration_count :
    (∀ stop step i : ℚ, 0 < step → i ≤ stop →
        (iRange stop step i).length = (⌊(stop - i) / step⌋).toNat + 1 ∧
        (iRange stop step i).Sorted (· ≤ ·) ∧
        ∀ x ∈ iRange stop step i, x ≤ stop) ∧
    (∀ b s a : ℤ, 0 < s → a ≤ b →
        (pyRange (b + 1) s a).length = (⌊((b : ℚ) - (a : ℚ)) / (s : ℚ)⌋).toNat + 1 ∧
        (pyRange (b + 1) s a).Sorted (· ≤ ·) ∧
        ∀ x ∈ pyRange (b + 1) s a, x ≤ b) := by
  constructor
  · intro stop step i h1 h2
    exact ⟨iRange_length stop step i h1 h2, iRange_sorted stop step i, iRange_ub stop step i⟩
  · intro b s a hs hab
    have hb : ((b + 1 - 1 : ℤ) : ℚ) = (b : ℚ) := by push_cast; ring
    have hc := pyRange_cast s (b + 1) a
    rw [hb] at hc
    have hsq : (0 : ℚ) < (s : ℚ) := by exact_mod_cast hs
    have habq : (a : ℚ) ≤ (b : ℚ) := by exact_mod_cast hab
    refine ⟨?_, ?_, ?_⟩
    · have := iRange_length (b : ℚ) (s : ℚ) (a : ℚ) hsq habq
      calc (pyRange (b + 1) s a).length
          = (List.map (fun z : ℤ => (z : ℚ)) (pyRange (b + 1) s a)).length :=
            (List.length_map _ _).symm
        _ = (iRange (b : ℚ) (s : ℚ) (a : ℚ)).length := by rw [hc]
        _ = (⌊((b : ℚ) - (a : ℚ)) / (s : ℚ)⌋).toNat + 1 := this
    · have hsor : (List.map (fun z : ℤ => (z : ℚ)) (pyRange (b + 1) s a)).Sorted (· ≤ ·) := by
        rw [hc]
        exact iRange_sorted _ _ _
      rw [List.Sorted, List.pairwise_map] at hsor
      exact hsor.imp (fun hxy => by exact_mod_cast hxy)
    · intro x hx
      have hxm : (x : ℚ) ∈ List.map (fun z : ℤ => (z : ℚ)) (pyRange (b + 1) s a) :=
        List.mem_map_of_mem _ hx
      rw [hc] at hxm
      have := iRange_ub (b : ℚ) (s : ℚ) (a : ℚ) (x : ℚ) hxm
      exact_mod_cast this

/-- Witness for C2 at the script's own inner axis (start 0, stop 10,
step 2.5): the hypotheses hold and the iteration count is ⌊10/2.5⌋ + 1. -/
theorem sweep_axis_iteration_count_witness :
    ((0 : ℚ) < 5 / 2 ∧ (0 : ℚ) ≤ 10) ∧
      (iRange 10 (5 / 2) 0).length = (⌊((10 : ℚ) - 0) / (5 / 2)⌋).toNat + 1 :=
  ⟨⟨by norm_num, by norm_num⟩,
    (sweep_axis_iteration_count.1 10 (5 / 2) 0 (by norm_num) (by norm_num)).1⟩

theorem runShutdown_noFault (fails : ShutStep → Bool) :
    ∀ l : List ShutStep, (∀ s ∈ l, fails s = false) → runShutdown fails l = (l, false) := by
  intro l
  induction l with
  | nil => intro _; rfl
  | cons s rest ih =>
    intro h
    have hs : fails s = false := h s (List.mem_cons_self s rest)
    have hrest := ih (fun x hx => h x (List.mem_cons_of_mem s hx))
    simp [runShutdown, hs, hrest]

theorem runShutdown_raised (fails : ShutStep → Bool) :
    ∀ l : List ShutStep, (runShutdown fails l).2 = l.any fails := by
  intro l
  induction l with
  | nil => rfl
  | cons s rest ih =>
    by_cases hs : fails s
    · simp [runShutdown, hs]
    · simp only [Bool.not_eq_true] at hs
      simp [runShutdown, hs, ih]

/-- C1 counterexample: with both endpoints connected and the very first
cleanup step (driving the simulator to 0 V) raising, the shutdown sequence
attempts nothing beyond that step — the load's cleanup steps are all
skipped — and the error escapes the finally block, contrary to the claim
that every step of every non-null handle is attempted and no error is ever
raised. -/
theorem shutdown_not_best_effort :
    runShutdown (fun s => decide (s = ShutStep.simVolt0)) (shutdownSeq true true) =
        ([ShutStep.simVolt0], true) ∧
      ShutStep.loadOff ∈ shutdownSeq true true ∧
      ShutStep.loadOff ∉ [ShutStep.simVolt0] := by
  refine ⟨by decide, by decide, by decide⟩

/-- C1 amended: for every subset of connected endpoints the shutdown
sequence attempts every cleanup step of every non-null handle and raises no
error, provided no individual cleanup step raises; when a step does raise,
the error propagates out of the finally block (the run raises) and the
remaining steps and handles are not attempted. -/
theorem shutdown_sequence_attempts_all :
    ∀ (simH loadH : Bool) (fails : ShutStep → Bool),
      ((∀ s ∈ shutdownSeq simH loadH, fails s = false) →
        runShutdown fails (shutdownSeq simH loadH) = (shutdownSeq simH loadH, false)) ∧
      (runShutdown fails (shutdownSeq simH loadH)).2 = (shutdownSeq simH loadH).any fails := by
  intro simH loadH fails
  exact ⟨runShutdown_noFault fails (shutdownSeq simH loadH),
    runShutdown_raised fails (shutdownSeq simH loadH)⟩

/-- Witness for the amended C1: with both endpoints connected and no step
raising, all seven cleanup steps are attempted and no error escapes. -/
theorem shutdown_sequence_attempts_all_witness :
    runShutdown (fun _ => false) (shutdownSeq true true) = (shutdownSeq true true, false) :=
  (shutdown_sequence_attempts_all true true (fun _ => false)).1 (fun _ _ => rfl)

/-- C4: the verification accepts exactly when |requested − readback| ≤ 0.1;
the boundary |Δ| = 0.1 is accepted; any |Δ| > 0.1 raises, and inside the
inner loop such a raise stops the sweep with an error. -/
theorem verification_tolerance :
    ∀ requested readback : ℚ,
      (verificationAccept requested readback = true ↔ |requested - readback| ≤ 1 / 10) ∧
      (|requested - readback| = 1 / 10 → verificationAccept requested readback = true) ∧
      (1 / 10 < |requested - readback| → verificationRaises requested readback = true) ∧
      (∀ (env : Env) (v : ℤ) (rest : List ℚ) (polls : ℕ),
        env.abortAt polls = false →
        rawFloat (env.currReadback v requested) = .ok readback →
        verificationRaises requested readback = true →
        (runInner env v (requested :: rest) polls).2.2 = some SweepStop.error) := by
  intro req rb
  have habs : |rb - req| = |req - rb| := abs_sub_comm rb req
  refine ⟨?_, ?_, ?_, ?_⟩
  · simp [verificationAccept, verificationRaises, habs, not_lt]
  · intro h
    simp [verificationAccept, verificationRaises, habs, h]
  · intro h
    simpa [verificationRaises, habs] using h
  · intro env v rest polls hab hrf hvr
    simp [runInner, hab, hrf, hvr]

/-- Witness for C4: the boundary pair (0, 0.1) with |Δ| = 0.1 is accepted. -/
theorem verification_tolerance_witness :
    |(0 : ℚ) - 1 / 10| = 1 / 10 ∧ verificationAccept 0 (1 / 10) = true :=
  ⟨by norm_num, (verification_tolerance 0 (1 / 10)).2.1 (by norm_num)⟩

/-- C10: in every inner-loop iteration that is not aborted, the trace starts
with the poll followed by the peak-current-limit command — whose argument is
1.5 × setpoint for a positive setpoint and 0.1 for setpoint zero — then the
CURR setpoint command, then LOAD ON, in that fixed order. -/
theorem peak_before_curr_order :
    ∀ (env : Env) (v : ℤ) (i : ℚ) (rest : List ℚ) (polls : ℕ),
      env.abortAt polls = false →
      ∃ t, (runInner env v (i :: rest) polls).1 =
          .poll :: .loadCmd (.peakAC (if 0 < i then i * (3 / 2) else 1 / 10)) ::
            .loadCmd (.curr i) :: .loadCmd .loadOn :: t ∧
        (0 < i → (if 0 < i then i * (3 / 2) else 1 / 10) = i * (3 / 2)) ∧
        (i = 0 → (if 0 < i then i * (3 / 2) else 1 / 10) = 1 / 10) := by
  intro env v i rest polls hab
  have harith1 : 0 < i → (if 0 < i then i * (3 / 2) else 1 / 10) = i * (3 / 2) :=
    fun h0 => if_pos h0
  have harith2 : i = 0 → (if 0 < i then i * (3 / 2) else 1 / 10) = 1 / 10 := by
    intro h0
    rw [h0]
    norm_num
  cases h : rawFloat (env.currReadback v i) with
  | error u =>
    exact ⟨[.loadQry .currQ (env.currReadback v i)],
      by simp [runInner, hab, h], harith1, harith2⟩
  | ok r =>
    by_cases hv : verificationRaises i r
    · exact ⟨[.loadQry .currQ (env.currReadback v i)],
        by simp [runInner, hab, h, hv], harith1, harith2⟩
    · exact ⟨.loadQry .currQ (env.currReadback v i) :: .loadQry .measV (env.measV v i) ::
        .loadQry .measI (env.measI v i) :: .loadQry .measP (env.measP v i) ::
        .record v i (parse_float (env.measV v i)) (parse_float (env.measI v i))
          (parse_float (env.measP v i)) :: (runInner env v rest (polls + 1)).1,
        by simp [runInner, hab, h, hv], harith1, harith2⟩

/-- Witness for C10 at the first combination (100, 0) in the fault-free
environment: the block starts poll, peak (argument 0.1), CURR 0, LOAD ON. -/
theorem peak_before_curr_order_witness :
    envBenign.abortAt 0 = false ∧
      ∃ t, (runInner envBenign 100 [0] 0).1 =
          .poll :: .loadCmd (.peakAC (if 0 < (0 : ℚ) then (0 : ℚ) * (3 / 2) else 1 / 10)) ::
            .loadCmd (.curr 0) :: .loadCmd .loadOn :: t ∧
        (0 < (0 : ℚ) →
          (if 0 < (0 : ℚ) then (0 : ℚ) * (3 / 2) else 1 / 10) = (0 : ℚ) * (3 / 2)) ∧
        ((0 : ℚ) = 0 → (if 0 < (0 : ℚ) then (0 : ℚ) * (3 / 2) else 1 / 10) = 1 / 10) :=
  ⟨rfl, peak_before_curr_order envBenign 100 0 [] 0 rfl⟩

theorem runInner_ok (env : Env) (v : ℤ) :
    ∀ (l : List ℚ) (polls : ℕ),
      (∀ k < l.length, env.abortAt (polls + k) = false) →
      (∀ i ∈ l, ∃ r, rawFloat (env.currReadback v i) = .ok r ∧
        verificationRaises i r = false) →
      runInner env v l polls = ((l.map (iterBlock env v)).flatten, polls + l.length, none) := by
  intro l
  induction l with
  | nil =>
    intro polls _ _
    simp [runInner]
  | cons i rest ih =>
    intro polls hab h
    have hab0 : env.abortAt polls = false := by
      have := hab 0 (by simp)
      simpa using this
    have habtail : ∀ k < rest.length, env.abortAt (polls + 1 + k) = false := by
      intro k hk
      have := hab (k + 1) (by simp; omega)
      rwa [show polls + (k + 1) = polls + 1 + k by omega] at this
    obtain ⟨r, hr, hv⟩ := h i (List.mem_cons_self i rest)
    have hrest := ih (polls + 1) habtail (fun x hx => h x (List.mem_cons_of_mem i hx))
    simp only [runInner, hab0, Bool.false_eq_true, if_false, hr, hv, hrest]
    simp [iterBlock, Nat.add_comm, Nat.add_assoc, Nat.add_left_comm]

theorem runOuter_ok (env : Env) (hab : ∀ n, env.abortAt n = false) (inner : List ℚ) :
    ∀ (vs : List ℤ) (polls : ℕ),
      (∀ v ∈ vs, ∀ i ∈ inner, ∃ r, rawFloat (env.currReadback v i) = .ok r ∧
        verificationRaises i r = false) →
      runOuter env inner vs polls =
        ((vs.map (fun v => Ev.simCmd (.volt v) :: (inner.map (iterBlock env v)).flatten)).flatten,
          polls + vs.length * inner.length, none) := by
  intro vs
  induction vs with
  | nil =>
    intro polls _
    simp [runOuter]
  | cons v rest ih =>
    intro polls h
    have hv := h v (List.mem_cons_self v rest)
    have hinner := runInner_ok env v inner polls (fun k _ => hab (polls + k)) hv
    have hrest := ih (polls + inner.length) (fun x hx => h x (List.mem_cons_of_mem v hx))
    simp only [runOuter, hinner, hrest, List.map_cons, List.flatten_cons, Prod.mk.injEq]
    refine ⟨by simp, ?_, trivial⟩
    simp only [List.length_cons]
    ring

theorem rawFloat_str0 : rawFloat "0" = .ok 0 := by
  have hd : "0".data = ['0'] := by decide
  simp [rawFloat, strToFloat?, pyStrip, hd, isPySpace, readDigits, parseExp, digitVal?]

theorem rawFloat_str25 : rawFloat "2.5" = .ok (5 / 2) := by
  have hd : "2.5".data = ['2', '.', '5'] := by decide
  simp [rawFloat, strToFloat?, pyStrip, hd, isPySpace, readDigits, parseExp, digitVal?]
  norm_num

theorem rawFloat_str5 : rawFloat "5" = .ok 5 := by
  have hd : "5".data = ['5'] := by decide
  simp [rawFloat, strToFloat?, pyStrip, hd, isPySpace, readDigits, parseExp, digitVal?]

theorem rawFloat_str75 : rawFloat "7.5" = .ok (15 / 2) := by
  have hd : "7.5".data = ['7', '.', '5'] := by decide
  simp [rawFloat, strToFloat?, pyStrip, hd, isPySpace, readDigits, parseExp, digitVal?]
  norm_num

theorem rawFloat_str10 : rawFloat "10" = .ok 10 := by
  have hd : "10".data = ['1', '0'] := by decide
  simp [rawFloat, strToFloat?, pyStrip, hd, isPySpace, readDigits, parseExp, digitVal?]

theorem rawFloat_str99 : rawFloat "99" = .ok 99 := by
  have hd : "99".data = ['9', '9'] := by decide
  simp [rawFloat, strToFloat?, pyStrip, hd, isPySpace, readDigits, parseExp, digitVal?]

theorem strToFloat_ERR : strToFloat? "ERR" = none := by decide

theorem strToFloat_empty : strToFloat? "" = none := by decide

theorem litOf_0 : litOf 0 = "0" := by norm_num [litOf]

theorem litOf_25 : litOf (5 / 2) = "2.5" := by norm_num [litOf]

theorem litOf_5 : litOf 5 = "5" := by norm_num [litOf]

theorem litOf_75 : litOf (15 / 2) = "7.5" := by norm_num [litOf]

theorem litOf_10 : litOf 10 = "10" := by norm_num [litOf]

theorem verificationRaises_self (i : ℚ) : verificationRaises i i = false := by
  norm_num [verificationRaises]

theorem envBenign_rb : ∀ v ∈ outerVoltages, ∀ i ∈ innerSetpoints,
    ∃ r, rawFloat (envBenign.currReadback v i) = .ok r ∧ verificationRaises i r = false := by
  rw [outerVoltages_eq, innerSetpoints_eq]
  intro v _ i hi
  have hcb : ∀ j : ℚ, envBenign.currReadback v j = litOf j := fun j => rfl
  fin_cases hi
  · exact ⟨0, by rw [hcb, litOf_0, rawFloat_str0], verificationRaises_self 0⟩
  · exact ⟨5 / 2, by rw [hcb, litOf_25, rawFloat_str25], verificationRaises_self (5 / 2)⟩
  · exact ⟨5, by rw [hcb, litOf_5, rawFloat_str5], verificationRaises_self 5⟩
  · exact ⟨15 / 2, by rw [hcb, litOf_75, rawFloat_str75], verificationRaises_self (15 / 2)⟩
  · exact ⟨10, by rw [hcb, litOf_10, rawFloat_str10], verificationRaises_self 10⟩

theorem runInner_cons_ok (env : Env) (v : ℤ) (i : ℚ) (rest : List ℚ) (polls : ℕ)
    (hab : env.abortAt polls = false)
    (h : ∃ r, rawFloat (env.currReadback v i) = .ok r ∧ verificationRaises i r = false) :
    runInner env v (i :: rest) polls =
      (iterBlock env v i ++ (runInner env v rest (polls + 1)).1,
        (runInner env v rest (polls + 1)).2) := by
  obtain ⟨r, hr, hv⟩ := h
  simp only [runInner, hab, Bool.false_eq_true, if_false, hr, hv]
  simp [iterBlock]

theorem runInner_abort (env : Env) (v : ℤ) (i : ℚ) (rest : List ℚ) (polls : ℕ)
    (hab : env.abortAt polls = true) :
    runInner env v (i :: rest) polls = ([.poll], polls + 1, some .interrupt) := by
  simp [runInner, hab]

theorem runInner_error (env : Env) (v : ℤ) (i : ℚ) (rest : List ℚ) (polls : ℕ)
    (hab : env.abortAt polls = false)
    (hr : rawFloat (env.currReadback v i) = .error ()) :
    runInner env v (i :: rest) polls =
      ([.poll, .loadCmd (.peakAC (if 0 < i then i * (3 / 2) else 1 / 10)),
        .loadCmd (.curr i), .loadCmd .loadOn, .loadQry .currQ (env.currReadback v i)],
        polls + 1, some .error) := by
  simp [runInner, hab, hr]

theorem runInner_head_poll (env : Env) (v : ℤ) (i : ℚ) (rest : List ℚ) (polls : ℕ) :
    (runInner env v (i :: rest) polls).1.head? = some Ev.poll := by
  by_cases hab : env.abortAt polls
  · simp [runInner, hab]
  · simp only [Bool.not_eq_true] at hab
    cases hr : rawFloat (env.currReadback v i) with
    | error u => simp [runInner, hab, hr]
    | ok r =>
      by_cases hv : verificationRaises i r
      · simp [runInner, hab, hr, hv]
      · simp [runInner, hab, hr, hv]

/-- C6: in a failure-free run (no abort, setup-check clean, every readback
parsable and within tolerance) the outer voltage sequence is exactly
[100, 125, 150], the fifteen combinations are processed with the outer axis
slowest — one result record per combination in iteration order, each inner
sequence being [0, 2.5, 5, 7.5, 10] — and the completion message comes only
after all fifteen records. -/
theorem full_sweep_order (env : Env)
    (hab : ∀ n, env.abortAt n = false)
    (hsetup : setupErrorRaises env.sysErrResp = false)
    (hrb : ∀ v ∈ outerVoltages, ∀ i ∈ innerSetpoints,
      ∃ r, rawFloat (env.currReadback v i) = .ok r ∧ verificationRaises i r = false) :
    (mainRun env).2 = .completed ∧
      (mainRun env).1.filterMap voltOf = [100, 125, 150] ∧
      (mainRun env).1.filterMap recOrDone =
        [some (100, 0), some (100, 5 / 2), some (100, 5), some (100, 15 / 2), some (100, 10),
         some (125, 0), some (125, 5 / 2), some (125, 5), some (125, 15 / 2), some (125, 10),
         some (150, 0), some (150, 5 / 2), some (150, 5), some (150, 15 / 2), some (150, 10),
         none] := by
  have houter := runOuter_ok env hab innerSetpoints outerVoltages 0 hrb
  simp only [mainRun, hsetup, Bool.false_eq_true, if_false, houter]
  rw [outerVoltages_eq, innerSetpoints_eq]
  refine ⟨trivial, ?_, ?_⟩
  · simp [simConnectEvs, connectLoadEvs, hsetup, iterBlock, voltOf, shutdownSeq,
      List.filterMap_append, List.filterMap_cons]
  · simp [simConnectEvs, connectLoadEvs, hsetup, iterBlock, recOrDone, shutdownSeq,
      List.filterMap_append, List.filterMap_cons]

/-- Witness for C6: the canonical fault-free environment completes the
sweep. -/
theorem full_sweep_order_witness :
    (mainRun envBenign).2 = .completed :=
  (full_sweep_order envBenign (fun _ => rfl) (by decide) envBenign_rb).1

/-- C5: the abort signal is polled exactly once per inner-loop iteration,
as the first event of the iteration; in any run where the abort key is seen
from the eighth poll on (right after the seventh combination (125, 2.5)
completes), exactly seven result records are produced, no CURR setpoint
command is issued for (125, 5) or any later combination, eight polls occur
in total, and the run goes straight to the shutdown sequence reporting a
user interruption rather than an error. -/
theorem abort_stops_sweep (env : Env)
    (hab1 : ∀ n < 7, env.abortAt n = false)
    (hab2 : env.abortAt 7 = true)
    (hsetup : setupErrorRaises env.sysErrResp = false)
    (hrb : ∀ v ∈ outerVoltages, ∀ i ∈ innerSetpoints,
      ∃ r, rawFloat (env.currReadback v i) = .ok r ∧ verificationRaises i r = false) :
    (mainRun env).2 = .interrupted ∧
      (mainRun env).1.filterMap recPairOf =
        [(100, 0), (100, 5 / 2), (100, 5), (100, 15 / 2), (100, 10), (125, 0), (125, 5 / 2)] ∧
      (mainRun env).1.filterMap currOf = [0, 5 / 2, 5, 15 / 2, 10, 0, 5 / 2] ∧
      (mainRun env).1.countP isPollEv = 8 ∧
      (∃ t0, (mainRun env).1 =
        t0 ++ [Ev.printInterrupted] ++ (shutdownSeq true true).map Ev.shut) ∧
      (∀ (env' : Env) (v : ℤ) (i : ℚ) (rest : List ℚ) (polls : ℕ),
        (runInner env' v (i :: rest) polls).1.head? = some Ev.poll) := by
  have hlen : innerSetpoints.length = 5 := by rw [innerSetpoints_eq]; rfl
  have m100 : (100 : ℤ) ∈ outerVoltages := by rw [outerVoltages_eq]; simp
  have m125 : (125 : ℤ) ∈ outerVoltages := by rw [outerVoltages_eq]; simp
  have mi0 : (0 : ℚ) ∈ innerSetpoints := by rw [innerSetpoints_eq]; simp
  have mi25 : (5 / 2 : ℚ) ∈ innerSetpoints := by rw [innerSetpoints_eq]; simp
  have hrb100 := hrb 100 m100
  have h100 : runInner env 100 innerSetpoints 0 =
      ((innerSetpoints.map (iterBlock env 100)).flatten, 5, none) := by
    have := runInner_ok env 100 innerSetpoints 0
      (fun k hk => hab1 (0 + k) (by rw [hlen] at hk; omega)) hrb100
    simpa [hlen] using this
  have s3 : runInner env 125 [5, 15 / 2, 10] 7 = ([.poll], 7 + 1, some .interrupt) :=
    runInner_abort env 125 5 [15 / 2, 10] 7 hab2
  have s2 : runInner env 125 [5 / 2, 5, 15 / 2, 10] 6 =
      (iterBlock env 125 (5 / 2) ++ [.poll], 7 + 1, some .interrupt) := by
    rw [runInner_cons_ok env 125 (5 / 2) [5, 15 / 2, 10] 6 (hab1 6 (by norm_num))
      (hrb 125 m125 (5 / 2) mi25)]
    rw [show (6 : ℕ) + 1 = 7 from rfl, s3]
  have s1 : runInner env 125 [0, 5 / 2, 5, 15 / 2, 10] 5 =
      (iterBlock env 125 0 ++ (iterBlock env 125 (5 / 2) ++ [.poll]), 7 + 1,
        some .interrupt) := by
    rw [runInner_cons_ok env 125 0 [5 / 2, 5, 15 / 2, 10] 5 (hab1 5 (by norm_num))
      (hrb 125 m125 0 mi0)]
    rw [show (5 : ℕ) + 1 = 6 from rfl, s2]
  have s0 : runInner env 125 innerSetpoints 5 =
      (iterBlock env 125 0 ++ (iterBlock env 125 (5 / 2) ++ [.poll]), 7 + 1,
        some .interrupt) := by
    rw [innerSetpoints_eq]
    exact s1
  have houter : runOuter env innerSetpoints outerVoltages 0 =
      (Ev.simCmd (.volt 100) ::
        ((innerSetpoints.map (iterBlock env 100)).flatten ++
          (Ev.simCmd (.volt 125) ::
            (iterBlock env 125 0 ++ (iterBlock env 125 (5 / 2) ++ [.poll])))),
        7 + 1, some .interrupt) := by
    rw [outerVoltages_eq]
    simp only [runOuter, h100, s0]
  refine ⟨?_, ?_, ?_, ?_, ?_, fun env' v i rest polls => runInner_head_poll env' v i rest polls⟩
  · simp only [mainRun, hsetup, Bool.false_eq_true, if_false, houter]
  · simp only [mainRun, hsetup, Bool.false_eq_true, if_false, houter]
    rw [innerSetpoints_eq]
    simp [simConnectEvs, connectLoadEvs, iterBlock, recPairOf, shutdownSeq,
      List.filterMap_append, List.filterMap_cons]
  · simp only [mainRun, hsetup, Bool.false_eq_true, if_false, houter]
    rw [innerSetpoints_eq]
    simp [simConnectEvs, connectLoadEvs, iterBlock, currOf, shutdownSeq,
      List.filterMap_append, List.filterMap_cons]
  · simp only [mainRun, hsetup, Bool.false_eq_true, if_false, houter]
    rw [innerSetpoints_eq]
    simp [simConnectEvs, connectLoadEvs, iterBlock, isPollEv, shutdownSeq,
      List.countP_append, List.countP_cons]
  · simp only [mainRun, hsetup, Bool.false_eq_true, if_false, houter]
    refine ⟨simConnectEvs env ++ connectLoadEvs env ++ [Ev.simCmd .outputOn] ++
      (Ev.simCmd (.volt 100) ::
        ((innerSetpoints.map (iterBlock env 100)).flatten ++
          (Ev.simCmd (.volt 125) ::
            (iterBlock env 125 0 ++ (iterBlock env 125 (5 / 2) ++ [Ev.poll]))))), ?_⟩
    simp [List.append_assoc]

theorem envAbort7_rb : ∀ v ∈ outerVoltages, ∀ i ∈ innerSetpoints,
    ∃ r, rawFloat (envAbort7.currReadback v i) = .ok r ∧ verificationRaises i r = false :=
  envBenign_rb

/-- Witness for C5: the concrete abort-after-(125, 2.5) environment is
interrupted, not errored. -/
theorem abort_stops_sweep_witness :
    envAbort7.abortAt 7 = true ∧ (mainRun envAbort7).2 = .interrupted :=
  ⟨by decide,
    (abort_stops_sweep envAbort7 (fun n hn => by simp [envAbort7, envBenign]; omega)
      (by decide) (by decide) envAbort7_rb).1⟩

/-- C3 counterexample: the response "ERR" is precisely one the tolerant
conversion would turn into NaN, yet the verification readback of the current
setpoint is converted with the raising float() (Control_Both.py line 159),
so a run whose only flaw is one unparsable readback response aborts with an
error instead of continuing. -/
theorem readback_conversion_not_tolerant :
    strToFloat? "ERR" = none ∧ parse_float "ERR" = PyFloat.nan ∧
      rawFloat (envBadReadback.currReadback 100 0) = .error () ∧
      (mainRun envBadReadback).2 = .errored := by
  have hERR : rawFloat (envBadReadback.currReadback 100 0) = .error () := by
    simp [envBadReadback, envBenign, rawFloat, strToFloat_ERR]
  refine ⟨strToFloat_ERR, by simp [parse_float, strToFloat_ERR], hERR, ?_⟩
  have hin : runInner envBadReadback 100 innerSetpoints 0 =
      ([.poll, .loadCmd (.peakAC (if 0 < (0 : ℚ) then (0 : ℚ) * (3 / 2) else 1 / 10)),
        .loadCmd (.curr 0), .loadCmd .loadOn,
        .loadQry .currQ (envBadReadback.currReadback 100 0)], 0 + 1, some .error) := by
    rw [innerSetpoints_eq]
    exact runInner_error envBadReadback 100 0 [5 / 2, 5, 15 / 2, 10] 0 rfl hERR
  have houter : runOuter envBadReadback innerSetpoints outerVoltages 0 =
      (Ev.simCmd (.volt 100) ::
        [Ev.poll, .loadCmd (.peakAC (if 0 < (0 : ℚ) then (0 : ℚ) * (3 / 2) else 1 / 10)),
         .loadCmd (.curr 0), .loadCmd .loadOn,
         .loadQry .currQ (envBadReadback.currReadback 100 0)], 0 + 1, some .error) := by
    rw [outerVoltages_eq]
    simp only [runOuter, hin]
  have hsetup : setupErrorRaises envBadReadback.sysErrResp = false := by decide
  simp only [mainRun, hsetup, Bool.false_eq_true, if_false, houter]

/-- C3 amended: the measurement responses (voltage, current, power) are
parsed with the tolerant parse_float, which never raises — an arbitrary,
even unparsable, measurement response cannot abort the sweep — but the
verification readback of the current setpoint (and the NHR script's voltage
readback) uses the raising float() conversion, so one unparsable readback
response aborts the sweep with an error. -/
theorem tolerant_parse_policy :
    (∀ s : String, parse_float s = .nan ∨ ∃ q, parse_float s = .num q) ∧
      (∀ (s : String) (q : ℚ), strToFloat? s = some q → parse_float s = .num q) ∧
      (∀ s : String, strToFloat? s = none → parse_float s = .nan ∧ rawFloat s = .error ()) ∧
      (∀ (env : Env) (v : ℤ) (i : ℚ) (rest : List ℚ) (polls : ℕ),
        env.abortAt polls = false →
        rawFloat (env.currReadback v i) = .error () →
        (runInner env v (i :: rest) polls).2.2 = some SweepStop.error) ∧
      (∀ env : Env, (∀ n, env.abortAt n = false) →
        setupErrorRaises env.sysErrResp = false →
        (∀ v ∈ outerVoltages, ∀ i ∈ innerSetpoints,
          ∃ r, rawFloat (env.currReadback v i) = .ok r ∧ verificationRaises i r = false) →
        (mainRun env).2 = .completed) := by
  refine ⟨?_, ?_, ?_, ?_, ?_⟩
  · intro s
    cases h : strToFloat? s with
    | some q => exact Or.inr ⟨q, by simp [parse_float, h]⟩
    | none => exact Or.inl (by simp [parse_float, h])
  · intro s q h
    simp [parse_float, h]
  · intro s h
    exact ⟨by simp [parse_float, h], by simp [rawFloat, h]⟩
  · intro env v i rest polls hab hr
    simp [runInner, hab, hr]
  · intro env hab hsetup hrb
    have houter := runOuter_ok env hab innerSetpoints outerVoltages 0 hrb
    simp only [mainRun, hsetup, Bool.false_eq_true, if_false, houter]

/-- Witness for the amended C3: an unparsable readback aborts the inner loop
with an error, while the fault-free run (whose measurement strings are
irrelevant to the outcome) completes. -/
theorem tolerant_parse_policy_witness :
    (runInner envBadReadback 100 [0] 0).2.2 = some SweepStop.error ∧
      (mainRun envBenign).2 = .completed :=
  ⟨tolerant_parse_policy.2.2.2.1 envBadReadback 100 0 [] 0 rfl
      (by simp [envBadReadback, envBenign, rawFloat, strToFloat_ERR]),
    tolerant_parse_policy.2.2.2.2 envBenign (fun _ => rfl) (by decide) envBenign_rb⟩

theorem strToFloat_125 : strToFloat? "12.5" = some (25 / 2) := by
  have hd : "12.5".data = ['1', '2', '.', '5'] := by decide
  simp [strToFloat?, pyStrip, hd, isPySpace, readDigits, parseExp, digitVal?]
  norm_num

/-- C7: parse_float returns the parsed value on every string the float
conversion accepts and NaN on every string it rejects — in particular
parse_float "12.5" = 12.5, while "" and "ERR" give NaN — and, being a total
function into PyFloat, it never raises. -/
theorem parse_float_total :
    (∀ s : String, (∀ q : ℚ, strToFloat? s = some q → parse_float s = .num q) ∧
      (strToFloat? s = none → parse_float s = .nan)) ∧
      parse_float "12.5" = .num (25 / 2) ∧
      parse_float "" = .nan ∧
      parse_float "ERR" = .nan := by
  refine ⟨fun s => ⟨fun q h => by simp [parse_float, h], fun h => by simp [parse_float, h]⟩,
    ?_, by decide, by decide⟩
  simp [parse_float, strToFloat_125]

/-- Witness for C7 at the spec's own example "12.5". -/
theorem parse_float_total_witness :
    strToFloat? "12.5" = some (25 / 2) ∧ parse_float "12.5" = PyFloat.num (25 / 2) :=
  ⟨strToFloat_125, (parse_float_total.1 "12.5").1 (25 / 2) strToFloat_125⟩

/-- C8: connect_electronic_load raises a setup error exactly when the
stripped SYSTem:ERRor? response is not "0", not "OK" and does not start with
"0,"; when it raises, no *IDN? query is issued and no sweep event (output
on, poll, setpoint command, record) ever occurs — the run goes straight to
shutdown with an error outcome. -/
theorem setup_error_check (env : Env) :
    (setupErrorRaises env.sysErrResp = true ↔
      (pyStrip env.sysErrResp ≠ "0" ∧ pyStrip env.sysErrResp ≠ "OK" ∧
        pyStartsWith (pyStrip env.sysErrResp) "0," = false)) ∧
    (setupErrorRaises env.sysErrResp = true →
      (mainRun env).1.all (fun e => !(isIdnQry e) && !(isSweepEv e)) = true ∧
      (mainRun env).2 = .errored) := by
  constructor
  · simp [setupErrorRaises]
  · intro h
    constructor
    · simp only [mainRun, h, if_true]
      simp [simConnectEvs, connectLoadEvs, h, shutdownSeq, isIdnQry, isSweepEv,
        List.all_append]
    · simp only [mainRun, h, if_true]

/-- Witness for C8: the response "113,Undefined header" raises at setup and
the run ends errored without any sweep event. -/
theorem setup_error_check_witness :
    setupErrorRaises envSetupError.sysErrResp = true ∧
      (mainRun envSetupError).2 = .errored :=
  ⟨by decide, ((setup_error_check envSetupError).2 (by decide)).2⟩

/-- C9 counterexample: on the raw response " 1.5\x0a" the socket query
cleaning (.strip() then null removal) also removes the LEADING space,
returning "1.5", whereas the claimed cleaning — trailing whitespace
stripped, nulls removed, nothing else — would return " 1.5". -/
theorem query_cleaning_strips_leading :
    cleanResponse " 1.5\n" = "1.5" ∧ specCleanTrailing " 1.5\n" = " 1.5" ∧
      cleanResponse " 1.5\n" ≠ specCleanTrailing " 1.5\n" := by
  refine ⟨by decide, by decide, by decide⟩

theorem head_dropWhile_not (p : Char → Bool) :
    ∀ (l : List Char) (c : Char), (l.dropWhile p).head? = some c → p c = false := by
  intro l
  induction l with
  | nil =>
    intro c h
    simp at h
  | cons a t ih =>
    intro c h
    rw [List.dropWhile_cons] at h
    by_cases hp : p a
    · rw [if_pos hp] at h
      exact ih c h
    · rw [if_neg hp] at h
      simp at h
      rw [← h]
      simpa using hp

theorem strip_ends_split (p : Char → Bool) (d : List Char) :
    ∃ l m r : List Char,
      d = l ++ m ++ r ∧
      (∀ c ∈ l, p c = true) ∧
      (∀ c ∈ r, p c = true) ∧
      (∀ c, m.head? = some c → p c = false) ∧
      (∀ c, m.getLast? = some c → p c = false) ∧
      ((d.dropWhile p).reverse.dropWhile p).reverse = m := by
  refine ⟨d.takeWhile p,
    ((d.dropWhile p).reverse.dropWhile p).reverse,
    ((d.dropWhile p).reverse.takeWhile p).reverse, ?_, ?_, ?_, ?_, ?_, rfl⟩
  · have hmr : ((d.dropWhile p).reverse.dropWhile p).reverse ++
        ((d.dropWhile p).reverse.takeWhile p).reverse = d.dropWhile p := by
      rw [← List.reverse_append, List.takeWhile_append_dropWhile, List.reverse_reverse]
    rw [List.append_assoc, hmr, List.takeWhile_append_dropWhile]
  · intro c hc
    exact List.mem_takeWhile_imp hc
  · intro c hc
    rw [List.mem_reverse] at hc
    exact List.mem_takeWhile_imp hc
  · intro c hc
    rw [List.head?_reverse] at hc
    have hne : (d.dropWhile p).reverse.dropWhile p ≠ [] := by
      intro hnil
      rw [hnil] at hc
      simp at hc
    have hsuffix : (d.dropWhile p).reverse.dropWhile p <:+ (d.dropWhile p).reverse :=
      List.dropWhile_suffix p
    obtain ⟨t, ht⟩ := hsuffix
    have hlast : (d.dropWhile p).reverse.getLast? = some c := by
      rw [← ht, List.getLast?_append_of_ne_nil t hne]
      exact hc
    rw [List.getLast?_reverse] at hlast
    exact head_dropWhile_not p d c hlast
  · intro c hc
    rw [List.getLast?_reverse] at hc
    exact head_dropWhile_not p (d.dropWhile p).reverse c hc

/-- C9 amended: the socket query returns the raw decoded response with a
maximal whitespace run removed from EACH end (leading as well as trailing —
Python str.strip) and, after that, every null byte removed; nothing else is
removed. -/
theorem query_cleaning_characterization (raw : String) :
    ∃ l m r : List Char,
      raw.data = l ++ m ++ r ∧
      (∀ c ∈ l, isPySpace c = true) ∧
      (∀ c ∈ r, isPySpace c = true) ∧
      (∀ c, m.head? = some c → isPySpace c = false) ∧
      (∀ c, m.getLast? = some c → isPySpace c = false) ∧
      (cleanResponse raw).data = m.filter (fun c => c != '\x00') := by
  obtain ⟨l, m, r, h1, h2, h3, h4, h5, h6⟩ := strip_ends_split isPySpace raw.data
  exact ⟨l, m, r, h1, h2, h3, h4, h5, by rw [← h6]; rfl⟩

/-- Witness for the amended C9 at the raw response " 1.5\x0a". -/
theorem query_cleaning_characterization_witness :
    ∃ l m r : List Char,
      (" 1.5\n" : String).data = l ++ m ++ r ∧
      (∀ c ∈ l, isPySpace c = true) ∧
      (∀ c ∈ r, isPySpace c = true) ∧
      (∀ c, m.head? = some c → isPySpace c = false) ∧
      (∀ c, m.getLast? = some c → isPySpace c = false) ∧
      (cleanResponse " 1.5\n").data = m.filter (fun c => c != '\x00') :=
  query_cleaning_characterization " 1.5\n"
